import Mathlib

/-!
Verification of the review-moderation pipeline (preprocess / profanity /
sentiment lambdas) against its natural-language specification.

The Python sources are shallowly embedded: each lambda handler becomes a pure
Lean function over an explicit pipeline state (association lists standing for
the DynamoDB tables, the S3 object stores and the SSM parameter store).
External black-box capabilities (the profanity classifier, the VADER compound
scorer, the text canonicalizer, datetime formatting) are passed as function
parameters, exactly as the spec treats them (spec section 1).  `hashlib.md5`
is embedded concretely, because the identifier-derivation claims depend on
actual digest values.
-/

set_option maxRecDepth 10000

/-! ## Association-list store primitives

DynamoDB tables, S3 buckets and the SSM parameter store are modelled as
association lists.  `lookupA` is `get_item` / `get_object` / `get_parameter`;
`insertA` is an upsert (`put_item`, or `update_item` through `updateA`, which
applies an update function to the stored item, creating it from a default when
absent -- DynamoDB `update_item` semantics). -/

def lookupA {α : Type} (l : List (String × α)) (k : String) : Option α :=
  (l.find? (fun p => p.1 = k)).map (fun p => p.2)

def insertA {α : Type} (l : List (String × α)) (k : String) (v : α) :
    List (String × α) :=
  (k, v) :: l.filter (fun p => p.1 ≠ k)

def updateA {α : Type} (l : List (String × α)) (k : String) (dflt : α)
    (f : α → α) : List (String × α) :=
  insertA l k (f ((lookupA l k).getD dflt))

theorem lookupA_insertA_self {α : Type} (l : List (String × α)) (k : String)
    (v : α) : lookupA (insertA l k v) k = some v := by
  simp [lookupA, insertA]

theorem find?_filter_keep {α : Type} (k k' : String) (h : k ≠ k') :
    ∀ t : List (String × α),
      (t.filter (fun p => p.1 ≠ k)).find? (fun p => p.1 = k') =
        t.find? (fun p => p.1 = k') := by
  intro t
  induction t with
  | nil => rfl
  | cons p t ih =>
    rw [List.filter_cons]
    by_cases hpk : p.1 = k
    · have h1 : decide (p.1 ≠ k) = false := by simp [hpk]
      have h2 : decide (p.1 = k') = false := by
        simp only [decide_eq_false_iff_not]
        intro hh
        exact h (hpk ▸ hh)
      rw [h1]
      simp only [Bool.false_eq_true, if_false]
      rw [ih, List.find?_cons, h2]
    · have h1 : decide (p.1 ≠ k) = true := by simp [hpk]
      rw [h1]
      simp only [if_true]
      rw [List.find?_cons, List.find?_cons]
      cases hd : decide (p.1 = k') with
      | true => rfl
      | false => exact ih

theorem lookupA_insertA_ne {α : Type} (l : List (String × α)) (k k' : String)
    (v : α) (h : k ≠ k') : lookupA (insertA l k v) k' = lookupA l k' := by
  simp only [lookupA, insertA, List.find?_cons]
  have hk : (decide (k = k')) = false := by simpa using h
  simp only [hk]
  rw [find?_filter_keep k k' h]

theorem insertA_insertA_self {α : Type} (l : List (String × α)) (k : String)
    (v w : α) : insertA (insertA l k v) k w = insertA l k w := by
  simp only [insertA, List.filter]
  simp [List.filter_filter]

/-! ## Embedded MD5 (`hashlib.md5(...).hexdigest()`)

A direct transcription of the MD5 algorithm on `Nat` with explicit `% 2^32`
reductions; inputs in this development are ASCII, so `Char.toNat` agrees with
Python's `.encode()`. -/

def u32 (n : Nat) : Nat := n % 4294967296

def rotl32 (x c : Nat) : Nat :=
  u32 (x <<< c) ||| (x >>> (32 - c))

def md5K : List Nat :=
  [0xd76aa478, 0xe8c7b756, 0x242070db, 0xc1bdceee,
   0xf57c0faf, 0x4787c62a, 0xa8304613, 0xfd469501,
   0x698098d8, 0x8b44f7af, 0xffff5bb1, 0x895cd7be,
   0x6b901122, 0xfd987193, 0xa679438e, 0x49b40821,
   0xf61e2562, 0xc040b340, 0x265e5a51, 0xe9b6c7aa,
   0xd62f105d, 0x02441453, 0xd8a1e681, 0xe7d3fbc8,
   0x21e1cde6, 0xc33707d6, 0xf4d50d87, 0x455a14ed,
   0xa9e3e905, 0xfcefa3f8, 0x676f02d9, 0x8d2a4c8a,
   0xfffa3942, 0x8771f681, 0x6d9d6122, 0xfde5380c,
   0xa4beea44, 0x4bdecfa9, 0xf6bb4b60, 0xbebfbc70,
   0x289b7ec6, 0xeaa127fa, 0xd4ef3085, 0x04881d05,
   0xd9d4d039, 0xe6db99e5, 0x1fa27cf8, 0xc4ac5665,
   0xf4292244, 0x432aff97, 0xab9423a7, 0xfc93a039,
   0x655b59c3, 0x8f0ccc92, 0xffeff47d, 0x85845dd1,
   0x6fa87e4f, 0xfe2ce6e0, 0xa3014314, 0x4e0811a1,
   0xf7537e82, 0xbd3af235, 0x2ad7d2bb, 0xeb86d391]

def md5S : List Nat :=
  [7, 12, 17, 22, 7, 12, 17, 22, 7, 12, 17, 22, 7, 12, 17, 22,
   5, 9, 14, 20, 5, 9, 14, 20, 5, 9, 14, 20, 5, 9, 14, 20,
   4, 11, 16, 23, 4, 11, 16, 23, 4, 11, 16, 23, 4, 11, 16, 23,
   6, 10, 15, 21, 6, 10, 15, 21, 6, 10, 15, 21, 6, 10, 15, 21]

def md5F (i b c d : Nat) : Nat :=
  if i < 16 then (b &&& c) ||| ((b ^^^ 0xffffffff) &&& d)
  else if i < 32 then (d &&& b) ||| ((d ^^^ 0xffffffff) &&& c)
  else if i < 48 then b ^^^ c ^^^ d
  else c ^^^ (b ||| (d ^^^ 0xffffffff))

def md5G (i : Nat) : Nat :=
  if i < 16 then i
  else if i < 32 then (5 * i + 1) % 16
  else if i < 48 then (3 * i + 5) % 16
  else (7 * i) % 16

def md5Round (M : List Nat) (st : Nat × Nat × Nat × Nat) (i : Nat) :
    Nat × Nat × Nat × Nat :=
  let a := st.1
  let b := st.2.1
  let c := st.2.2.1
  let d := st.2.2.2
  let f := u32 (md5F i b c d + a + md5K.getD i 0 + M.getD (md5G i) 0)
  (d, u32 (b + rotl32 f (md5S.getD i 0)), b, c)

def leWord (bytes : List Nat) (i : Nat) : Nat :=
  bytes.getD (4 * i) 0 + 256 * bytes.getD (4 * i + 1) 0 +
    65536 * bytes.getD (4 * i + 2) 0 + 16777216 * bytes.getD (4 * i + 3) 0

def md5ProcessChunk (st : Nat × Nat × Nat × Nat) (chunk : List Nat) :
    Nat × Nat × Nat × Nat :=
  let M := (List.range 16).map (leWord chunk)
  let r := (List.range 64).foldl (md5Round M) st
  (u32 (st.1 + r.1), u32 (st.2.1 + r.2.1),
   u32 (st.2.2.1 + r.2.2.1), u32 (st.2.2.2 + r.2.2.2))

def md5Blocks (padded : List Nat) : List (List Nat) :=
  (List.range (padded.length / 64)).map
    (fun i => (padded.drop (64 * i)).take 64)

def leBytes (n count : Nat) : List Nat :=
  (List.range count).map (fun i => (n >>> (8 * i)) % 256)

def md5Pad (msg : List Nat) : List Nat :=
  let ml := (8 * msg.length) % 18446744073709551616
  let withOne := msg ++ [128]
  let zeros := (64 + 56 - withOne.length % 64) % 64
  withOne ++ List.replicate zeros 0 ++ leBytes ml 8

def hexDigitChar (n : Nat) : Char :=
  ("0123456789abcdef".toList).getD n '0'

def byteToHex (b : Nat) : List Char :=
  [hexDigitChar (b / 16), hexDigitChar (b % 16)]

def md5Hex (s : String) : String :=
  let msg := s.toList.map Char.toNat
  let r := (md5Blocks (md5Pad msg)).foldl md5ProcessChunk
    (0x67452301, 0xefcdab89, 0x98badcfe, 0x10325476)
  let bytes := leBytes r.1 4 ++ leBytes r.2.1 4 ++ leBytes r.2.2.1 4 ++
    leBytes r.2.2.2 4
  String.mk (bytes.foldr (fun b acc => byteToHex b ++ acc) [])

example : md5Hex "abc" = "900150983cd24fb0d6963f7d28e17f72" := by decide
example : md5Hex "" = "d41d8cd98f00b204e9800998ecf8427e" := by decide

/-! ## PreprocessStage (`src/code/lambdas/preprocess/preprocess.py`)

The raw review JSON object is a record of optional fields (a Python dict).
The external NLP canonicalizer (`preprocess_text`) and the datetime library
(`datetime.utcfromtimestamp(...).isoformat()`, `datetime.strptime`) are
black-box capabilities, passed as function parameters. -/

structure RawReview where
  reviewId : Option String
  reviewerID : Option String
  asin : Option String
  reviewText : Option String
  overall : Option ℚ
  summary : Option String
  unixReviewTime : Option Int
  reviewTime : Option String
  category : Option String
  reviewerName : Option String
  helpful : Option (List ℚ)
deriving DecidableEq

/-- `get_ssm_param`: a missing parameter raises
`ValueError(f"SSM Error ({name}): ...")`. -/
def get_ssm_param (ssm : List (String × String)) (name : String) :
    Except String String :=
  match lookupA ssm name with
  | some v => Except.ok v
  | none => Except.error ("SSM Error (" ++ name ++ "): ParameterNotFound")

/-- `parse_review_time`: epoch timestamp preferred, then the textual
`"%m %d, %Y"` form (parse failures swallowed), else the current time.
`fmtUnix` stands for `datetime.utcfromtimestamp(..).isoformat()` and `strp`
for `datetime.strptime(.., "%m %d, %Y").isoformat()` (returning `none` on a
parse failure). -/
def parse_review_time (fmtUnix : Int → String) (strp : String → Option String)
    (review : RawReview) (nowIso : String) : String :=
  match review.unixReviewTime with
  | some t => fmtUnix t
  | none =>
    match review.reviewTime with
    | some s =>
      match strp s with
      | some iso => iso
      | none => nowIso
    | none => nowIso

/-- `generate_review_id`: reuse a supplied `reviewId`; otherwise hash
`f"{asin}_{reviewerID}_{review.get('unixReviewTime', utcnow().timestamp())}"`
with MD5, keep the first 8 hex digits, and append to `asin` and `reviewerID`.
`nowTs` is the already-formatted `datetime.utcnow().timestamp()` fallback. -/
def generate_review_id (reviewIdSupplied : Option String)
    (asin reviewerID : String) (unixReviewTimeSupplied : Option Int)
    (nowTs : String) : String :=
  match reviewIdSupplied with
  | some rid => rid
  | none =>
    let ts := match unixReviewTimeSupplied with
              | some t => toString t
              | none => nowTs
    let hash_input := asin ++ "_" ++ reviewerID ++ "_" ++ ts
    let hash_suffix := (md5Hex hash_input).take 8
    asin ++ "_" ++ reviewerID ++ "_" ++ hash_suffix

/-- The validation loop over `required_fields = ["reviewerID", "asin",
"reviewText", "overall"]`: first field not present in the dict. -/
def firstMissingField (review : RawReview) : Option String :=
  if review.reviewerID = none then some "reviewerID"
  else if review.asin = none then some "asin"
  else if review.reviewText = none then some "reviewText"
  else if review.overall = none then some "overall"
  else none

/-- Whether `f` is one of the required fields and is absent from the review
dict (used to state that a validation error names a genuinely missing
field). -/
def fieldAbsent (review : RawReview) (f : String) : Bool :=
  if f = "reviewerID" then review.reviewerID = none
  else if f = "asin" then review.asin = none
  else if f = "reviewText" then review.reviewText = none
  else if f = "overall" then review.overall = none
  else false

/-- The `processed_data` JSON document written to the processed bucket. -/
structure ProcessedData where
  reviewId : String
  reviewerID : String
  asin : String
  overall : ℚ
  preprocessedReviewText : String
  preprocessedSummary : String
  originalReviewText : String
  originalSummary : String
  category : String
  reviewerName : String
  timestamp : String
  helpful : List ℚ
deriving DecidableEq

/-- The `dynamo_item` inserted into the reviews table by PreprocessStage. -/
structure DynamoItemP where
  reviewId : String
  userId : String
  productId : String
  originalTextLocation : String
  preprocessedLocation : String
  overallRating : ℚ
  timestamp : String
  wordCount : Nat
  summaryWordCount : Nat
  helpfulVotes : ℚ
  totalVotes : ℚ
  reviewerName : String
  productCategory : String
  processingStatus : String
  createdAt : String
  hasProfanity : Option Bool
  sentiment : Option String
  profanityCheckStatus : String
  sentimentAnalysisStatus : String
deriving DecidableEq

/-- State touched by PreprocessStage: the SSM parameter store, the processed
bucket (a list of `(bucket, key, body)` writes) and the reviews table (a list
of inserted items). -/
structure PreState where
  ssm : List (String × String)
  blobWrites : List (String × String × ProcessedData)
  reviewItems : List DynamoItemP
deriving DecidableEq

inductive PreBody where
  | ok (reviewId : String) (preprocessedLocation : String)
  | err (error : String)
deriving DecidableEq

structure PreResponse where
  statusCode : Nat
  body : PreBody
deriving DecidableEq

/-- Python `len(s.split())`: number of maximal whitespace-free tokens. -/
def pySplitLen (s : String) : Nat :=
  ((s.split (fun c => c.isWhitespace)).filter (fun t => t ≠ "")).length

/-- The body of preprocess `lambda_handler` up to its `except` clause.
Every failure point (SSM resolution, then validation) precedes the first
write, so an error leaves the state untouched.  The S3 `get_object` of the
raw review is an external read whose parsed result is the `review` argument.
Field extractions after validation use `getD` defaults; they are guarded by
the validation step, exactly as the Python indexing is. -/
def preprocess_core (canon : String → String) (fmtUnix : Int → String)
    (strp : String → Option String) (st : PreState)
    (source_bucket key : String) (review : RawReview)
    (nowIso nowTs : String) : Except String (PreState × String × String) :=
  match get_ssm_param st.ssm "/app/config/raw_bucket" with
  | Except.error e => Except.error e
  | Except.ok _raw_bucket =>
  match get_ssm_param st.ssm "/app/config/processed_bucket" with
  | Except.error e => Except.error e
  | Except.ok processed_bucket =>
  match get_ssm_param st.ssm "/app/config/reviews_table" with
  | Except.error e => Except.error e
  | Except.ok _reviews_table =>
  match firstMissingField review with
  | some f => Except.error ("Missing required field: " ++ f)
  | none =>
    let review_id := generate_review_id review.reviewId (review.asin.getD "")
      (review.reviewerID.getD "") review.unixReviewTime nowTs
    let review_text := review.reviewText.getD ""
    let summary_text := review.summary.getD ""
    let processed_data : ProcessedData :=
      { reviewId := review_id
        reviewerID := review.reviewerID.getD ""
        asin := review.asin.getD ""
        overall := review.overall.getD 0
        preprocessedReviewText := canon review_text
        preprocessedSummary := canon summary_text
        originalReviewText := review_text
        originalSummary := summary_text
        category := review.category.getD "uncategorized"
        reviewerName := review.reviewerName.getD ""
        timestamp := parse_review_time fmtUnix strp review nowIso
        helpful := review.helpful.getD [0, 0] }
    let processed_key := "preprocessed/" ++ review.reviewerID.getD "" ++ "/" ++
      review_id ++ ".json"
    let helpful := review.helpful.getD [0, 0]
    let dynamo_item : DynamoItemP :=
      { reviewId := review_id
        userId := review.reviewerID.getD ""
        productId := review.asin.getD ""
        originalTextLocation := "s3://" ++ source_bucket ++ "/" ++ key
        preprocessedLocation := "s3://" ++ processed_bucket ++ "/" ++
          processed_key
        overallRating := review.overall.getD 0
        timestamp := parse_review_time fmtUnix strp review nowIso
        wordCount := if processed_data.preprocessedReviewText ≠ "" then
          pySplitLen processed_data.preprocessedReviewText else 0
        summaryWordCount := if processed_data.preprocessedSummary ≠ "" then
          pySplitLen processed_data.preprocessedSummary else 0
        helpfulVotes := if helpful.length > 0 then helpful.getD 0 0 else 0
        totalVotes := if helpful.length > 1 then helpful.getD 1 0 else 0
        reviewerName := review.reviewerName.getD ""
        productCategory := review.category.getD "uncategorized"
        processingStatus := "preprocessed"
        createdAt := nowIso
        hasProfanity := none
        sentiment := none
        profanityCheckStatus := "pending"
        sentimentAnalysisStatus := "pending" }
    let st1 := { st with blobWrites :=
      st.blobWrites ++ [(processed_bucket, processed_key, processed_data)] }
    let st2 := { st1 with reviewItems := st1.reviewItems ++ [dynamo_item] }
    Except.ok (st2, review_id, processed_key)

/-- Preprocess `lambda_handler`: the `except` clause maps any raised error to
a 500 response with the error text; success returns 200 with
`{reviewId, preprocessedLocation}`. -/
def preprocess_lambda_handler (canon : String → String)
    (fmtUnix : Int → String) (strp : String → Option String) (st : PreState)
    (source_bucket key : String) (review : RawReview) (nowIso nowTs : String) :
    PreState × PreResponse :=
  match preprocess_core canon fmtUnix strp st source_bucket key review nowIso
    nowTs with
  | Except.ok (st2, rid, loc) => (st2, ⟨200, PreBody.ok rid loc⟩)
  | Except.error e => (st, ⟨500, PreBody.err e⟩)

/-- **C5.** An ingest payload missing any of the required fields
(`reviewerID`, `asin`, `reviewText`, `overall`) makes PreprocessStage fail
with a validation error naming the missing field, and neither the blob store
nor the record store is written: the state returned by the handler is exactly
the input state. -/
theorem preprocess_missing_field_no_partial_writes
    (canon : String → String) (fmtUnix : Int → String)
    (strp : String → Option String) (st : PreState)
    (source_bucket key : String) (review : RawReview) (nowIso nowTs : String)
    (rb pb rt f : String)
    (hrb : lookupA st.ssm "/app/config/raw_bucket" = some rb)
    (hpb : lookupA st.ssm "/app/config/processed_bucket" = some pb)
    (hrt : lookupA st.ssm "/app/config/reviews_table" = some rt)
    (hmiss : firstMissingField review = some f) :
    fieldAbsent review f = true ∧
    preprocess_lambda_handler canon fmtUnix strp st source_bucket key review
        nowIso nowTs =
      (st, ⟨500, PreBody.err ("Missing required field: " ++ f)⟩) := by
  constructor
  · unfold firstMissingField at hmiss
    split_ifs at hmiss with h1 h2 h3 h4 <;>
      (injection hmiss with hf
       subst hf
       simp_all [fieldAbsent])
  · unfold preprocess_lambda_handler preprocess_core get_ssm_param
    rw [hrb, hpb, hrt, hmiss]

def c5Review : RawReview :=
  { reviewId := none
    reviewerID := some "u1"
    asin := some "a1"
    reviewText := some "nice product"
    overall := none
    summary := some "nice"
    unixReviewTime := some 1393632000
    reviewTime := none
    category := none
    reviewerName := none
    helpful := none }

def c5State : PreState :=
  { ssm := [("/app/config/raw_bucket", "raw-reviews-bucket"),
            ("/app/config/processed_bucket", "processed-reviews-bucket"),
            ("/app/config/reviews_table", "reviews")]
    blobWrites := []
    reviewItems := [] }

/-- Witness for C5: a concrete payload missing `overall` fails with the
validation error naming `overall` and leaves both stores untouched. -/
theorem preprocess_missing_field_no_partial_writes_witness :
    fieldAbsent c5Review "overall" = true ∧
    preprocess_lambda_handler id toString (fun _ => none) c5State
        "raw-reviews-bucket" "r.json" c5Review "2024-01-01T00:00:00"
        "1700000000.0" =
      (c5State, ⟨500, PreBody.err "Missing required field: overall"⟩) :=
  preprocess_missing_field_no_partial_writes id toString (fun _ => none)
    c5State "raw-reviews-bucket" "r.json" c5Review "2024-01-01T00:00:00"
    "1700000000.0" "raw-reviews-bucket" "processed-reviews-bucket" "reviews"
    "overall" (by decide) (by decide) (by decide) (by decide)

/-- **C6 counterexample.**  A payload that carries neither a `reviewId` nor a
`unixReviewTime` derives its identifier from the current wall-clock timestamp
(`datetime.utcnow().timestamp()`): ingesting the identical raw payload at two
different times yields two different identifiers, so re-ingestion is not
idempotent for such payloads. -/
theorem review_id_differs_across_reingestion :
    generate_review_id none "B001E94B8Y" "u1" none "0.0" ≠
      generate_review_id none "B001E94B8Y" "u1" none "1.0" := by
  decide

/-- **C6 (amended).**  If the input carries a `reviewId` it is reused
verbatim; otherwise, provided the payload supplies an epoch timestamp
(`unixReviewTime`), the derived identifier is a pure function of
(`asin`, `reviewerID`, timestamp) — identical across re-ingestions,
independent of the ingestion wall-clock time. -/
theorem review_id_deterministic :
    (∀ (rid asin reviewerID : String) (t : Option Int) (nowTs : String),
        generate_review_id (some rid) asin reviewerID t nowTs = rid) ∧
    (∀ (asin reviewerID : String) (t : Int) (nowTs nowTs' : String),
        generate_review_id none asin reviewerID (some t) nowTs =
          generate_review_id none asin reviewerID (some t) nowTs') := by
  constructor
  · intro rid asin reviewerID t nowTs
    rfl
  · intro asin reviewerID t nowTs nowTs'
    rfl

/-! ## Stream stages: shared state
(`src/lambda/profanity/profanity.py`, `src/lambda/sentiment/sentiment.py`)

Both stages consume DynamoDB stream records (`NewImage` of the inserted
review) and act on a shared pipeline state: the reviews table, the customers
table, the SSM parameter store, and the S3 object store (parsed JSON
documents, keyed by `bucket ++ "/" ++ key`).  Attribute maps are records of
optional fields, `none` meaning the attribute is absent from the item. -/

/-- A reviews-table item as seen and mutated by the stream stages; every
attribute is optional because DynamoDB `update_item` creates items holding
only the attributes it sets. -/
structure ReviewRec where
  userId : Option String
  productId : Option String
  originalTextLocation : Option String
  preprocessedLocation : Option String
  overallRating : Option ℚ
  timestamp : Option String
  wordCount : Option Nat
  summaryWordCount : Option Nat
  helpfulVotes : Option ℚ
  totalVotes : Option ℚ
  reviewerName : Option String
  productCategory : Option String
  processingStatus : Option String
  createdAt : Option String
  hasProfanity : Option Bool
  sentiment : Option String
  profanityCheckStatus : Option String
  sentimentAnalysisStatus : Option String
  lastUpdated : Option String
deriving DecidableEq

def emptyReviewRec : ReviewRec :=
  { userId := none, productId := none, originalTextLocation := none,
    preprocessedLocation := none, overallRating := none, timestamp := none,
    wordCount := none, summaryWordCount := none, helpfulVotes := none,
    totalVotes := none, reviewerName := none, productCategory := none,
    processingStatus := none, createdAt := none, hasProfanity := none,
    sentiment := none, profanityCheckStatus := none,
    sentimentAnalysisStatus := none, lastUpdated := none }

/-- A customers-table item (the ModerationAggregate record). -/
structure Customer where
  totalReviews : Option Nat
  violationCount : Option Nat
  isBanned : Option Bool
  banDate : Option String
  createdDate : Option String
  lastUpdated : Option String
  lastReviewDate : Option String
  firstReviewDate : Option String
  firstViolationDate : Option String
  lastViolationDate : Option String
deriving DecidableEq

def emptyCustomer : Customer :=
  { totalReviews := none, violationCount := none, isBanned := none,
    banDate := none, createdDate := none, lastUpdated := none,
    lastReviewDate := none, firstReviewDate := none,
    firstViolationDate := none, lastViolationDate := none }

/-- A parsed JSON document in the object store (raw or preprocessed review
payload); `.get(field, "")` accesses become `getD ""`. -/
structure BlobDoc where
  reviewText : Option String
  summary : Option String
  preprocessedReviewText : Option String
  preprocessedSummary : Option String
deriving DecidableEq

/-- The `NewImage` attributes of one DynamoDB stream record, together with
its event kind.  `reviewId` and `userId` are indexed directly by both
handlers, so they are non-optional here. -/
structure StreamRecord where
  eventName : String
  reviewId : String
  userId : String
  originalReviewText : Option String
  originalSummary : Option String
  originalTextLocation : Option String
  preprocessedLocation : Option String
  overallRating : Option ℚ
deriving DecidableEq

/-- The pipeline state shared by the stream stages. -/
structure PState where
  reviews : List (String × ReviewRec)
  customers : List (String × Customer)
  ssm : List (String × String)
  blobs : List (String × BlobDoc)
deriving DecidableEq

/-- Character-list helpers standing for the Python string operations used by
the stream stages (structural recursions, so that concrete instances
evaluate). -/
def charsStartWith : List Char → List Char → Bool
  | [], _ => true
  | _ :: _, [] => false
  | p :: ps, x :: xs => p == x && charsStartWith ps xs

/-- Split at the first occurrence of `c`; `none` when `c` does not occur
(Python `s.split(c, 1)` yielding fewer than two parts). -/
def breakAtChar (c : Char) : List Char → Option (List Char × List Char)
  | [] => none
  | x :: rest =>
    if x = c then some ([], rest)
    else
      match breakAtChar c rest with
      | none => none
      | some (a, b) => some (x :: a, b)

/-- Python `s.replace("s3://", "")`: delete every (non-overlapping,
left-to-right) occurrence of `s3://`. -/
def stripS3Scheme : List Char → List Char
  | 's' :: '3' :: ':' :: '/' :: '/' :: rest => stripS3Scheme rest
  | x :: rest => x :: stripS3Scheme rest
  | [] => []

/-- Python `s.split('/', 1)` when it yields exactly two parts. -/
def splitSlashOnce (s : String) : Option (String × String) :=
  match breakAtChar '/' s.toList with
  | none => none
  | some (a, b) => some (String.mk a, String.mk b)

/-! ## ProfanityStage (`src/lambda/profanity/profanity.py`)

The profanity classifier `pf.is_profane` is the external black-box
`isProfane` parameter; `datetime.now().isoformat()` is the `now` parameter.
The reviews table is module-level `dynamodb.Table('reviews')` (hardcoded, not
configuration); the customers table name and the ban threshold are read from
SSM during record processing. -/

/-- Review-text retrieval when only a reference is stored:
`new_image['originalTextLocation']['S'].replace('s3://', '').split('/', 1)`
then `s3.get_object`, reading `reviewText` / `summary` with `.get(.., '')`.
Any failure (missing attribute, malformed location, missing object) raises
and is caught by the per-record handler. -/
def profanity_fetch_text (blobs : List (String × BlobDoc)) (loc : String) :
    Except String (String × String) :=
  match splitSlashOnce (String.mk (stripS3Scheme loc.toList)) with
  | none => Except.error "not enough values to unpack"
  | some (bucket, key) =>
    match lookupA blobs (bucket ++ "/" ++ key) with
    | none => Except.error "NoSuchKey"
    | some doc => Except.ok (doc.reviewText.getD "", doc.summary.getD "")

/-- Lines 64-74 of profanity.py: inline text when `originalReviewText` is on
the image (then `originalSummary` is indexed directly and a missing attribute
raises), otherwise dereference `originalTextLocation` through S3. -/
def getReviewTexts (blobs : List (String × BlobDoc)) (r : StreamRecord) :
    Except String (String × String) :=
  match r.originalReviewText with
  | none =>
    match r.originalTextLocation with
    | none => Except.error "KeyError: originalTextLocation"
    | some loc => profanity_fetch_text blobs loc
  | some review_text =>
    match r.originalSummary with
    | none => Except.error "KeyError: originalSummary"
    | some summary_text => Except.ok (review_text, summary_text)

/-- The review-record update of ProfanityStage:
`SET profanityCheckStatus = 'completed', hasProfanity = <result>,
lastUpdated = now`. -/
def profanityUpdate (has_profanity : Bool) (now : String) (rec : ReviewRec) :
    ReviewRec :=
  { rec with profanityCheckStatus := some "completed",
             hasProfanity := some has_profanity,
             lastUpdated := some now }

/-- Lines 102-184 of profanity.py: the customers-table item after the
existing-customer `update_item` (with `ReturnValues='ALL_NEW'`, i.e. the
merged stored item) or the new-customer `put_item`. -/
def customerAfterCount (existing : Option Customer) (has_profanity : Bool)
    (current_time : String) : Customer :=
  match existing with
  | some item =>
    let current_total := item.totalReviews.getD 0
    let current_violations := item.violationCount.getD 0
    let c1 := { item with lastUpdated := some current_time,
                          lastReviewDate := some current_time,
                          totalReviews := some (current_total + 1) }
    let c2 := if item.isBanned = none then { c1 with isBanned := some false }
              else c1
    let c3 := if item.createdDate = none then
                { c2 with createdDate := some current_time } else c2
    let c4 := if item.firstReviewDate = none then
                { c3 with firstReviewDate := some current_time } else c3
    if has_profanity then
      let c5 := { c4 with violationCount := some (current_violations + 1),
                          lastViolationDate := some current_time }
      if item.firstViolationDate = none then
        { c5 with firstViolationDate := some current_time }
      else c5
    else
      if item.violationCount = none then { c4 with violationCount := some 0 }
      else c4
  | none =>
    let base : Customer :=
      { totalReviews := some 1,
        violationCount := some (if has_profanity then 1 else 0),
        isBanned := some false,
        banDate := none,
        createdDate := some current_time,
        lastUpdated := some current_time,
        lastReviewDate := some current_time,
        firstReviewDate := some current_time,
        firstViolationDate := none,
        lastViolationDate := none }
    if has_profanity then
      { base with firstViolationDate := some current_time,
                  lastViolationDate := some current_time }
    else base

/-- Python `int(s)` on a decimal string (optional leading minus sign);
`none` models the raised `ValueError`. -/
def parseDigits (cs : List Char) (acc : Nat) : Option Nat :=
  match cs with
  | [] => some acc
  | c :: rest =>
    if 48 ≤ c.toNat ∧ c.toNat ≤ 57 then
      parseDigits rest (acc * 10 + (c.toNat - 48))
    else none

def pyInt (s : String) : Option Int :=
  match s.toList with
  | [] => none
  | '-' :: rest =>
    if rest.isEmpty then none
    else (parseDigits rest 0).map (fun n => -(n : Int))
  | cs => (parseDigits cs 0).map (fun n => (n : Int))

/-- Lines 190-207 of profanity.py: the automated banning step, applied to the
state after the customer update.  `updated` is `updated_customer`; the
threshold is fetched from SSM and parsed by `int(..)` only inside the guard.
A missing or unparsable threshold raises, which the per-record handler
catches after the customer update has already committed. -/
def banStep (st : PState) (updated : Customer) (user_id now : String) :
    PState :=
  let violation_count := updated.violationCount.getD 0
  if violation_count > 0 ∧ ¬(updated.isBanned.getD false) then
    match (lookupA st.ssm "/app/config/profanity_threshold").bind
        pyInt with
    | none => st
    | some threshold =>
      if (violation_count : Int) ≥ threshold then
        let customers2 := updateA st.customers user_id emptyCustomer
          (fun c => { c with isBanned := some true, banDate := some now })
        { st with customers := customers2 }
      else st
  else st

/-- One iteration of the record loop of profanity `lambda_handler`
(lines 51-211).  Non-INSERT events are skipped; every raised error is caught
by one of the two `except` clauses and the loop continues, so the function is
total and returns the state as mutated up to the failure point. -/
def profanityProcessRecord (isProfane : String → Bool) (now : String)
    (st : PState) (r : StreamRecord) : PState :=
  if r.eventName ≠ "INSERT" then st
  else
    match getReviewTexts st.blobs r with
    | Except.error _ => st
    | Except.ok (review_text, summary_text) =>
      let has_profanity := isProfane review_text || isProfane summary_text
      let reviews1 := updateA st.reviews r.reviewId emptyReviewRec
        (profanityUpdate has_profanity now)
      let st1 := { st with reviews := reviews1 }
      match lookupA st1.ssm "/app/config/customers_table" with
      | none => st1
      | some _customers_table_name =>
        let updated := customerAfterCount (lookupA st1.customers r.userId)
          has_profanity now
        let customers1 := insertA st1.customers r.userId updated
        let st2 := { st1 with customers := customers1 }
        banStep st2 updated r.userId now

/-- Profanity `lambda_handler`: processes the batch sequentially and always
returns `{'statusCode': 200}`. -/
def profanity_lambda_handler (isProfane : String → Bool) (now : String)
    (st : PState) (records : List StreamRecord) : PState × Nat :=
  (records.foldl (profanityProcessRecord isProfane now) st, 200)

/-! ## SentimentStage (`src/lambda/sentiment/sentiment.py`)

The VADER compound scorer (`sia.polarity_scores(..)['compound']`, a value in
[-1, 1]) is the external black-box `score` parameter. -/

/-- `parse_s3_uri`: `re.match(r"s3://([^/]+)/(.+)", uri)`; a failed match
raises `ValueError`. -/
def parse_s3_uri (uri : String) : Option (String × String) :=
  if charsStartWith "s3://".toList uri.toList then
    match splitSlashOnce (String.mk (uri.toList.drop 5)) with
    | some (bucket, key) =>
      if bucket ≠ "" ∧ key ≠ "" then some (bucket, key) else none
    | none => none
  else none

/-- `analyze_sentiment` (lines 75-121): hybrid classification from the VADER
compound score of the combined text and the rating-implied sentiment. -/
def analyze_sentiment (score : String → ℚ) (summary review_text : String)
    (overall : ℚ) : String :=
  let combined_text := summary.trim ++ " " ++ review_text.trim
  let compound := score combined_text
  let rating_sentiment : Option String :=
    if overall ≥ 4 then some "positive"
    else if overall ≤ 2 then some "negative"
    else none
  if compound ≥ mkRat 1 2 ∨
      (compound > 0 ∧ rating_sentiment = some "positive") then
    "positive"
  else if compound ≤ mkRat (-1) 2 ∨
      (compound < 0 ∧ rating_sentiment = some "negative") then
    "negative"
  else "neutral"

/-- The review-record update of SentimentStage:
`SET sentiment = :s, sentimentAnalysisStatus = 'processed'`. -/
def sentimentUpdate (sentiment : String) (rec : ReviewRec) : ReviewRec :=
  { rec with sentiment := some sentiment,
             sentimentAnalysisStatus := some "processed" }

/-- One iteration of the record loop of sentiment `lambda_handler`
(lines 146-190).  Only the final `update_item` sits inside a `try`; the URI
parse and the S3 fetch are unguarded, so their failure raises out of the
whole handler (`Except.error`).  The rating is
`new_image.get("overallRating", {}).get("N", "3")` parsed by `float` with a
3.0 fallback: an absent or unparsable rating is `none` in the image, so both
defaults collapse into `getD 3`. -/
def sentimentProcessRecord (score : String → ℚ) (st : PState)
    (r : StreamRecord) : Except String PState :=
  if r.eventName ≠ "INSERT" then Except.ok st
  else
    let preprocessed_uri := r.preprocessedLocation.getD ""
    match parse_s3_uri preprocessed_uri with
    | none => Except.error ("Invalid S3 URI: " ++ preprocessed_uri)
    | some (bucket, key) =>
      match lookupA st.blobs (bucket ++ "/" ++ key) with
      | none => Except.error "NoSuchKey"
      | some data =>
        let summary := data.preprocessedSummary.getD ""
        let review_text := data.preprocessedReviewText.getD ""
        let overall := r.overallRating.getD 3
        let sentiment := analyze_sentiment score summary review_text overall
        let reviews1 := updateA st.reviews r.reviewId emptyReviewRec
          (sentimentUpdate sentiment)
        Except.ok { st with reviews := reviews1 }

/-- The record loop of sentiment `lambda_handler`: sequential processing, an
uncaught per-record error aborts the loop (keeping the mutations already
committed) and the invocation fails (`false`). -/
def sentLoop (score : String → ℚ) (st : PState)
    (records : List StreamRecord) : PState × Bool :=
  match records with
  | [] => (st, true)
  | r :: rest =>
    match sentimentProcessRecord score st r with
    | Except.error _ => (st, false)
    | Except.ok st1 => sentLoop score st1 rest

/-- Sentiment `lambda_handler`: resolves `reviews_table` from SSM before the
loop (absence raises, failing the invocation with no record processed), then
runs the record loop. -/
def sentiment_lambda_handler (score : String → ℚ) (st : PState)
    (records : List StreamRecord) : PState × Bool :=
  match lookupA st.ssm "/app/config/reviews_table" with
  | none => (st, false)
  | some _reviews_table_name => sentLoop score st records

/-! ## Concrete fixtures -/

def ssmFull : List (String × String) :=
  [("/app/config/raw_bucket", "raw-reviews-bucket"),
   ("/app/config/processed_bucket", "processed-reviews-bucket"),
   ("/app/config/reviews_table", "reviews"),
   ("/app/config/customers_table", "customers"),
   ("/app/config/profanity_threshold", "4")]

/-- An insert notification for a profanity-flagged review with inline text
(`originalReviewText` present on the image). -/
def profaneRecord : StreamRecord :=
  { eventName := "INSERT", reviewId := "r1", userId := "u1",
    originalReviewText := some "this damn product is bad",
    originalSummary := some "crap",
    originalTextLocation := none, preprocessedLocation := none,
    overallRating := some 1 }

def st0 : PState :=
  { reviews := [], customers := [], ssm := ssmFull, blobs := [] }

/-- **C1 (the code evaluated at the failing input).**  Delivering the same
insert notification for the same flagged review twice: the first delivery
sets the user's violationCount to 1, and the redelivery increments it again
to 2 — the ModerationAggregate update is not idempotent per review. -/
theorem profanity_redelivery_double_counts :
    ((lookupA (profanity_lambda_handler (fun _ => true) "t1" st0
        [profaneRecord]).1.customers "u1").bind Customer.violationCount
      = some 1) ∧
    ((lookupA (profanity_lambda_handler (fun _ => true) "t2"
        (profanity_lambda_handler (fun _ => true) "t1" st0
          [profaneRecord]).1 [profaneRecord]).1.customers "u1").bind
        Customer.violationCount
      = some 2) := by
  decide

/-! ## C4: sentiment classification policy -/

/-- Modelled from the spec: rating-implied sentiment (rating ≥ 4 → positive,
rating ≤ 2 → negative, else no implied sentiment). -/
def ratingImplied (overall : ℚ) : Option String :=
  if overall ≥ 4 then some "positive"
  else if overall ≤ 2 then some "negative"
  else none

/-- Modelled from the spec: the classification policy, rules applied in
order: (1) compound ≥ 0.5 or (compound > 0 and implied positive) →
positive; (2) compound ≤ -0.5 or (compound < 0 and implied negative) →
negative; (3) otherwise neutral. -/
def sentimentPolicySpec (compound overall : ℚ) : String :=
  if compound ≥ mkRat 1 2 ∨
      (compound > 0 ∧ ratingImplied overall = some "positive")
    then "positive"
  else if compound ≤ mkRat (-1) 2 ∨
      (compound < 0 ∧ ratingImplied overall = some "negative")
    then "negative"
  else "neutral"

/-- **C4.**  `analyze_sentiment` classifies by exactly the spec's policy,
applied to the compound score of the trimmed, space-joined summary and
review text; in particular a compound of exactly 0.5 classifies positive
(any rating), compound 0.1 with rating 5 classifies positive, and compound
-0.1 with rating 3 classifies neutral. -/
theorem analyze_sentiment_matches_policy :
    (∀ (score : String → ℚ) (summary review_text : String) (overall : ℚ),
        analyze_sentiment score summary review_text overall =
          sentimentPolicySpec
            (score (summary.trim ++ " " ++ review_text.trim)) overall) ∧
    (∀ overall : ℚ,
        analyze_sentiment (fun _ => mkRat 1 2) "" "" overall = "positive") ∧
    analyze_sentiment (fun _ => mkRat 1 10) "" "" 5 = "positive" ∧
    analyze_sentiment (fun _ => mkRat (-1) 10) "" "" 3 = "neutral" := by
  refine ⟨fun score summary review_text overall => rfl, fun overall => ?_,
    ?_, ?_⟩
  · unfold analyze_sentiment
    norm_num [Rat.mkRat_eq_divInt, Rat.divInt_eq_div]
  · unfold analyze_sentiment
    norm_num [Rat.mkRat_eq_divInt, Rat.divInt_eq_div]
  · unfold analyze_sentiment
    norm_num [Rat.mkRat_eq_divInt, Rat.divInt_eq_div]
    exact fun h => nomatch h

/-! ## Step characterizations

Derived, proof-supporting forms of the two per-record steps: each step is
shown equal to a componentwise state update, which makes the independence
and invariant arguments compositional. -/

/-- The state left by one sentiment record iteration, whether or not it
raised (an uncaught error keeps the state mutated so far, which for a single
record is the input state). -/
def sentimentStepState (score : String → ℚ) (st : PState)
    (r : StreamRecord) : PState :=
  match sentimentProcessRecord score st r with
  | Except.error _ => st
  | Except.ok st1 => st1

/-- The sentiment value the sentiment iteration writes for `r`, if any; it
depends only on the stream image and the object store. -/
def sentimentWrite (score : String → ℚ) (blobs : List (String × BlobDoc))
    (r : StreamRecord) : Option String :=
  if r.eventName ≠ "INSERT" then none
  else
    match parse_s3_uri (r.preprocessedLocation.getD "") with
    | none => none
    | some (bucket, key) =>
      match lookupA blobs (bucket ++ "/" ++ key) with
      | none => none
      | some data =>
        some (analyze_sentiment score (data.preprocessedSummary.getD "")
          (data.preprocessedReviewText.getD "") (r.overallRating.getD 3))

theorem sentimentStepState_char (score : String → ℚ) (st : PState)
    (r : StreamRecord) :
    sentimentStepState score st r =
      { st with reviews :=
          match sentimentWrite score st.blobs r with
          | none => st.reviews
          | some s => updateA st.reviews r.reviewId emptyReviewRec
              (sentimentUpdate s) } := by
  unfold sentimentStepState sentimentProcessRecord sentimentWrite
  by_cases hE : r.eventName ≠ "INSERT"
  · rw [if_pos hE, if_pos hE]
  · rw [if_neg hE, if_neg hE]
    rcases hp : parse_s3_uri (r.preprocessedLocation.getD "") with _ | ⟨b, k⟩ <;>
      simp only [hp]
    rcases hb : lookupA st.blobs (b ++ "/" ++ k) with _ | data <;>
      simp only [hb]

/-- The profanity flag the profanity iteration computes for `r`, if the
record is an acted-on insert whose text is retrievable; depends only on the
stream image and the object store. -/
def profanityHasProf (ipf : String → Bool)
    (blobs : List (String × BlobDoc)) (r : StreamRecord) : Option Bool :=
  if r.eventName ≠ "INSERT" then none
  else
    match getReviewTexts blobs r with
    | Except.error _ => none
    | Except.ok (review_text, summary_text) =>
      some (ipf review_text || ipf summary_text)

/-- Reviews-table component of the profanity iteration: the review update
commits exactly when the flag was computed (it precedes the customers-table
SSM lookup). -/
def profanityReviewsAfter (ipf : String → Bool) (now : String)
    (blobs : List (String × BlobDoc)) (reviews : List (String × ReviewRec))
    (r : StreamRecord) : List (String × ReviewRec) :=
  match profanityHasProf ipf blobs r with
  | none => reviews
  | some hp => updateA reviews r.reviewId emptyReviewRec
      (profanityUpdate hp now)

/-- Customers-table component of the profanity iteration (aggregate update
plus ban step). -/
def profanityCustomersAfter (ipf : String → Bool) (now : String)
    (ssm : List (String × String)) (blobs : List (String × BlobDoc))
    (customers : List (String × Customer)) (r : StreamRecord) :
    List (String × Customer) :=
  match profanityHasProf ipf blobs r with
  | none => customers
  | some hp =>
    match lookupA ssm "/app/config/customers_table" with
    | none => customers
    | some _ =>
      let updated := customerAfterCount (lookupA customers r.userId) hp now
      let cs1 := insertA customers r.userId updated
      let violation_count := updated.violationCount.getD 0
      if violation_count > 0 ∧ ¬(updated.isBanned.getD false) then
        match (lookupA ssm "/app/config/profanity_threshold").bind pyInt with
        | none => cs1
        | some threshold =>
          if (violation_count : Int) ≥ threshold then
            updateA cs1 r.userId emptyCustomer
              (fun c => { c with isBanned := some true, banDate := some now })
          else cs1
      else cs1

theorem profanityProcessRecord_char (ipf : String → Bool) (now : String)
    (st : PState) (r : StreamRecord) :
    profanityProcessRecord ipf now st r =
      { st with
          reviews := profanityReviewsAfter ipf now st.blobs st.reviews r,
          customers := profanityCustomersAfter ipf now st.ssm st.blobs
            st.customers r } := by
  unfold profanityProcessRecord profanityReviewsAfter
    profanityCustomersAfter profanityHasProf banStep
  by_cases hE : r.eventName ≠ "INSERT"
  · rw [if_pos hE, if_pos hE]
  · rw [if_neg hE, if_neg hE]
    rcases hT : getReviewTexts st.blobs r with e | ⟨rt, sm⟩ <;>
      simp only [hT]
    rcases hS : lookupA st.ssm "/app/config/customers_table" with _ | ctn <;>
      simp only [hS]
    split <;>
      first
        | rfl
        | (split <;>
            first
              | rfl
              | (split <;> rfl))

theorem updateA_profanity_sentiment_comm (l : List (String × ReviewRec))
    (k : String) (hp : Bool) (now s : String) :
    updateA (updateA l k emptyReviewRec (profanityUpdate hp now)) k
        emptyReviewRec (sentimentUpdate s) =
      updateA (updateA l k emptyReviewRec (sentimentUpdate s)) k
        emptyReviewRec (profanityUpdate hp now) := by
  unfold updateA
  rw [lookupA_insertA_self, lookupA_insertA_self]
  simp only [Option.getD_some]
  rw [insertA_insertA_self, insertA_insertA_self]
  rfl

theorem sentiment_handler_single (score : String → ℚ) (st : PState)
    (r : StreamRecord) :
    (sentiment_lambda_handler score st [r]).1 =
      match lookupA st.ssm "/app/config/reviews_table" with
      | none => st
      | some _ => sentimentStepState score st r := by
  unfold sentiment_lambda_handler
  rcases hR : lookupA st.ssm "/app/config/reviews_table" with _ | n <;>
    simp only [hR]
  unfold sentimentStepState
  simp only [sentLoop]
  rcases hs : sentimentProcessRecord score st r with e | st1 <;>
    simp only [hs]

/-- **C8.**  ProfanityStage and SentimentStage commute: delivering the same
insert notification to SentimentStage and then ProfanityStage leaves exactly
the same pipeline state (the review record with every field, the customers
table, the parameter store and the object store) as delivering it in the
opposite order. -/
theorem stages_commute (score : String → ℚ) (isProfane : String → Bool)
    (now : String) (st : PState) (r : StreamRecord) :
    (sentiment_lambda_handler score
        (profanity_lambda_handler isProfane now st [r]).1 [r]).1 =
      (profanity_lambda_handler isProfane now
        (sentiment_lambda_handler score st [r]).1 [r]).1 := by
  have hP : ∀ s : PState, (profanity_lambda_handler isProfane now s [r]).1 =
      profanityProcessRecord isProfane now s r := fun s => rfl
  rw [sentiment_handler_single, sentiment_handler_single, hP, hP]
  simp only [profanityProcessRecord_char, sentimentStepState_char]
  rcases hR : lookupA st.ssm "/app/config/reviews_table" with _ | n <;>
    simp only [hR]
  rcases hw : sentimentWrite score st.blobs r with _ | s <;> simp only [hw]
  rcases hh : profanityHasProf isProfane st.blobs r with _ | hp <;>
    simp only [profanityReviewsAfter, hh]
  exact congrArg (fun x => PState.mk x _ _ _)
    (updateA_profanity_sentiment_comm st.reviews r.reviewId hp now s)

/-! ## C2: the Banned state is terminal -/

theorem customerAfterCount_some_banDate (c : Customer) (hp : Bool)
    (now : String) :
    (customerAfterCount (some c) hp now).banDate = c.banDate := by
  unfold customerAfterCount
  dsimp only
  split_ifs <;> rfl

theorem customerAfterCount_some_isBanned (c : Customer) (hp : Bool)
    (now : String) (hb : c.isBanned = some true) :
    (customerAfterCount (some c) hp now).isBanned = some true := by
  unfold customerAfterCount
  have hnn : ¬(c.isBanned = none) := by rw [hb]; exact fun h => nomatch h
  dsimp only
  split_ifs with h1 <;> first
    | exact absurd h1 hnn
    | exact hb

theorem bannedStable_customers (ipf : String → Bool) (now : String)
    (ssm : List (String × String)) (blobs : List (String × BlobDoc))
    (customers : List (String × Customer)) (r : StreamRecord) (u : String)
    (c : Customer) (hc : lookupA customers u = some c)
    (hb : c.isBanned = some true) :
    ∃ c', lookupA (profanityCustomersAfter ipf now ssm blobs customers r) u
        = some c' ∧
      c'.isBanned = some true ∧ c'.banDate = c.banDate := by
  unfold profanityCustomersAfter
  rcases hh : profanityHasProf ipf blobs r with _ | hp <;> simp only [hh]
  · exact ⟨c, hc, hb, rfl⟩
  rcases hS : lookupA ssm "/app/config/customers_table" with _ | ctn <;>
    simp only [hS]
  · exact ⟨c, hc, hb, rfl⟩
  by_cases hu : r.userId = u
  · subst hu
    rw [hc]
    have hub : (customerAfterCount (some c) hp now).isBanned = some true :=
      customerAfterCount_some_isBanned c hp now hb
    have hg : ¬((customerAfterCount (some c) hp now).violationCount.getD 0 > 0
        ∧ ¬((customerAfterCount (some c) hp now).isBanned.getD false)) := by
      rw [hub]
      simp
    rw [if_neg hg]
    exact ⟨_, lookupA_insertA_self _ _ _, hub,
      customerAfterCount_some_banDate c hp now⟩
  · split
    · split
      · exact ⟨c, by rw [lookupA_insertA_ne _ _ _ _ hu]; exact hc, hb, rfl⟩
      · split
        · refine ⟨c, ?_, hb, rfl⟩
          unfold updateA
          rw [lookupA_insertA_ne _ _ _ _ hu, lookupA_insertA_ne _ _ _ _ hu]
          exact hc
        · exact ⟨c, by rw [lookupA_insertA_ne _ _ _ _ hu]; exact hc, hb, rfl⟩
    · exact ⟨c, by rw [lookupA_insertA_ne _ _ _ _ hu]; exact hc, hb, rfl⟩

theorem bannedStable_step (ipf : String → Bool) (now : String) (st : PState)
    (r : StreamRecord) (u : String) (c : Customer)
    (hc : lookupA st.customers u = some c) (hb : c.isBanned = some true) :
    ∃ c', lookupA (profanityProcessRecord ipf now st r).customers u = some c'
        ∧ c'.isBanned = some true ∧ c'.banDate = c.banDate := by
  rw [profanityProcessRecord_char]
  exact bannedStable_customers ipf now st.ssm st.blobs st.customers r u c
    hc hb

/-- **C2.**  `isBanned` is terminal and `banDate` stable: for every pipeline
state in which a customer is banned and every sequence of delivered stream
records, after any further ProfanityStage invocation the customer is still
banned and `banDate` is unchanged (in particular a further flagged review for
an already-banned user changes neither). -/
theorem isBanned_terminal_banDate_stable (isProfane : String → Bool)
    (now : String) (records : List StreamRecord) (st : PState) (u : String)
    (c : Customer) (hc : lookupA st.customers u = some c)
    (hb : c.isBanned = some true) :
    ∃ c', lookupA (profanity_lambda_handler isProfane now st
        records).1.customers u = some c' ∧
      c'.isBanned = some true ∧ c'.banDate = c.banDate := by
  unfold profanity_lambda_handler
  induction records generalizing st c with
  | nil => exact ⟨c, hc, hb, rfl⟩
  | cons r rest ih =>
    simp only [List.foldl_cons]
    obtain ⟨c1, h1, h2, h3⟩ := bannedStable_step isProfane now st r u c hc hb
    obtain ⟨c2, g1, g2, g3⟩ := ih _ c1 h1 h2
    exact ⟨c2, g1, g2, g3.trans h3⟩

def bannedCustomer : Customer :=
  { totalReviews := some 5, violationCount := some 4, isBanned := some true,
    banDate := some "2024-01-01T00:00:00", createdDate := some "2023",
    lastUpdated := some "2024", lastReviewDate := some "2024",
    firstReviewDate := some "2023", firstViolationDate := some "2023",
    lastViolationDate := some "2024" }

def stBanned : PState :=
  { reviews := [], customers := [("u1", bannedCustomer)], ssm := ssmFull,
    blobs := [] }

/-- Witness for C2: a 5th flagged review for an already-banned user (ban
threshold 4) leaves the user banned with the original `banDate`. -/
theorem isBanned_terminal_banDate_stable_witness :
    ∃ c', lookupA (profanity_lambda_handler (fun _ => true) "t9" stBanned
        [profaneRecord]).1.customers "u1" = some c' ∧
      c'.isBanned = some true ∧ c'.banDate = bannedCustomer.banDate :=
  isBanned_terminal_banDate_stable (fun _ => true) "t9" [profaneRecord]
    stBanned "u1" bannedCustomer (by decide) (by decide)

/-! ## C3 and C10: aggregate update properties -/

theorem getReviewTexts_inline (blobs : List (String × BlobDoc))
    (r : StreamRecord) (rt sm : String)
    (hrt : r.originalReviewText = some rt)
    (hsm : r.originalSummary = some sm) :
    getReviewTexts blobs r = Except.ok (rt, sm) := by
  unfold getReviewTexts
  rw [hrt, hsm]

theorem profanityHasProf_inline (ipf : String → Bool)
    (blobs : List (String × BlobDoc)) (r : StreamRecord) (rt sm : String)
    (hE : r.eventName = "INSERT")
    (hrt : r.originalReviewText = some rt)
    (hsm : r.originalSummary = some sm) :
    profanityHasProf ipf blobs r = some (ipf rt || ipf sm) := by
  unfold profanityHasProf
  rw [getReviewTexts_inline blobs r rt sm hrt hsm, if_neg (by simp [hE])]

theorem customerAfterCount_totalReviews (oc : Option Customer) (hp : Bool)
    (now : String) :
    (customerAfterCount oc hp now).totalReviews =
      some (((oc.bind Customer.totalReviews).getD 0) + 1) := by
  rcases oc with _ | c <;>
    (unfold customerAfterCount
     dsimp only
     split_ifs <;> rfl)

/-- **C3.**  For every processed flagged (or clean) insert, the ban decision
is taken on the customer value produced by the counter update
(`updated_customer`, the post-update item): the final stored customer is
exactly that value, promoted to banned (`isBanned = true`, `banDate = now`)
precisely when its fresh `violationCount` meets or exceeds the configured
threshold (an integer ≥ 1) and the customer is not already banned. -/
theorem ban_decision_uses_fresh_count (isProfane : String → Bool)
    (now : String) (st : PState) (r : StreamRecord) (rt sm ctn ts : String)
    (th : Int)
    (hE : r.eventName = "INSERT")
    (hrt : r.originalReviewText = some rt)
    (hsm : r.originalSummary = some sm)
    (hct : lookupA st.ssm "/app/config/customers_table" = some ctn)
    (hts : lookupA st.ssm "/app/config/profanity_threshold" = some ts)
    (hparse : pyInt ts = some th)
    (hth : 1 ≤ th) :
    lookupA (profanityProcessRecord isProfane now st r).customers r.userId =
      some
        (let updated := customerAfterCount (lookupA st.customers r.userId)
          (isProfane rt || isProfane sm) now
         if ((updated.violationCount.getD 0 : Int) ≥ th ∧
             ¬(updated.isBanned.getD false))
         then { updated with isBanned := some true, banDate := some now }
         else updated) := by
  rw [profanityProcessRecord_char]
  show lookupA (profanityCustomersAfter isProfane now st.ssm st.blobs
    st.customers r) r.userId = _
  unfold profanityCustomersAfter
  rw [profanityHasProf_inline isProfane st.blobs r rt sm hE hrt hsm, hct]
  dsimp only
  rw [hts]
  dsimp only [Option.bind]
  rw [hparse]
  dsimp only
  set upd := customerAfterCount (lookupA st.customers r.userId)
    (isProfane rt || isProfane sm) now with hupd
  by_cases hg : (upd.violationCount.getD 0 > 0 ∧
      ¬(upd.isBanned.getD false = true))
  · rw [if_pos hg]
    by_cases hge : ((upd.violationCount.getD 0 : Int) ≥ th)
    · rw [if_pos hge]
      unfold updateA
      rw [lookupA_insertA_self]
      simp only [Option.getD_some]
      rw [lookupA_insertA_self, if_pos ⟨hge, hg.2⟩]
      rfl
    · rw [if_neg hge, lookupA_insertA_self,
        if_neg (fun hcond => hge hcond.1)]
  · rw [if_neg hg, lookupA_insertA_self]
    have hcond : ¬(((upd.violationCount.getD 0 : Int) ≥ th) ∧
        ¬(upd.isBanned.getD false = true)) := by
      intro hcond
      apply hg
      refine ⟨?_, hcond.2⟩
      have h1 := hcond.1
      omega
    rw [if_neg hcond]

/-- Witness for C3: a first flagged review for an unseen user with threshold
4 leaves the user unbanned with violationCount 1 (the fresh value 1 does not
meet the threshold). -/
theorem ban_decision_uses_fresh_count_witness :
    lookupA (profanityProcessRecord (fun _ => true) "t1" st0
        profaneRecord).customers "u1" =
      some
        (let updated := customerAfterCount (lookupA st0.customers "u1")
          ((fun _ => true) "this damn product is bad" ||
            (fun _ => true) "crap") "t1"
         if ((updated.violationCount.getD 0 : Int) ≥ 4 ∧
             ¬(updated.isBanned.getD false))
         then { updated with isBanned := some true, banDate := some "t1" }
         else updated) :=
  ban_decision_uses_fresh_count (fun _ => true) "t1" st0 profaneRecord
    "this damn product is bad" "crap" "customers" "4" 4 (by decide)
    (by decide) (by decide) (by decide) (by decide) (by decide) (by decide)

/-- **C10.**  Every successfully processed insert notification increments
the submitting user's `totalReviews` by exactly one (creating the record
with `totalReviews = 1` for an unseen user), with no dependence on the
review identifier or on whether that review was counted before — so under
at-least-once redelivery `totalReviews` counts processed deliveries, not
distinct reviews. -/
theorem totalReviews_counts_every_delivery (isProfane : String → Bool)
    (now : String) (st : PState) (r : StreamRecord) (rt sm ctn : String)
    (hE : r.eventName = "INSERT")
    (hrt : r.originalReviewText = some rt)
    (hsm : r.originalSummary = some sm)
    (hct : lookupA st.ssm "/app/config/customers_table" = some ctn) :
    (lookupA (profanityProcessRecord isProfane now st r).customers
        r.userId).bind Customer.totalReviews =
      some ((((lookupA st.customers r.userId).bind
        Customer.totalReviews).getD 0) + 1) := by
  rw [profanityProcessRecord_char]
  show (lookupA (profanityCustomersAfter isProfane now st.ssm st.blobs
    st.customers r) r.userId).bind Customer.totalReviews = _
  unfold profanityCustomersAfter
  rw [profanityHasProf_inline isProfane st.blobs r rt sm hE hrt hsm, hct]
  dsimp only
  set upd := customerAfterCount (lookupA st.customers r.userId)
    (isProfane rt || isProfane sm) now with hupd
  have hT : upd.totalReviews =
      some ((((lookupA st.customers r.userId).bind
        Customer.totalReviews).getD 0) + 1) := by
    rw [hupd]
    exact customerAfterCount_totalReviews _ _ _
  split
  · split
    · rw [lookupA_insertA_self]
      exact hT
    · split
      · unfold updateA
        rw [lookupA_insertA_self]
        simp only [Option.getD_some]
        rw [lookupA_insertA_self]
        exact hT
      · rw [lookupA_insertA_self]
        exact hT
  · rw [lookupA_insertA_self]
    exact hT

/-- Witness for C10: redelivering the same notification still adds one, so
two deliveries of the same review set totalReviews to 2. -/
theorem totalReviews_counts_every_delivery_witness :
    (lookupA (profanityProcessRecord (fun _ => true) "t2"
        (profanityProcessRecord (fun _ => true) "t1" st0 profaneRecord)
        profaneRecord).customers "u1").bind Customer.totalReviews =
      some ((((lookupA (profanityProcessRecord (fun _ => true) "t1" st0
        profaneRecord).customers "u1").bind
        Customer.totalReviews).getD 0) + 1) :=
  totalReviews_counts_every_delivery (fun _ => true) "t2"
    (profanityProcessRecord (fun _ => true) "t1" st0 profaneRecord)
    profaneRecord "this damn product is bad" "crap" "customers" (by decide)
    (by decide) (by decide) (by decide)

/-! ## C7: per-record error isolation in batch processing -/

theorem profanityProcessRecord_fetch_error (ipf : String → Bool)
    (now : String) (st : PState) (r1 : StreamRecord) (e : String)
    (hfail : getReviewTexts st.blobs r1 = Except.error e) :
    profanityProcessRecord ipf now st r1 = st := by
  unfold profanityProcessRecord
  by_cases hE : r1.eventName ≠ "INSERT"
  · rw [if_pos hE]
  · rw [if_neg hE, hfail]

/-- A stream record whose `preprocessedLocation` attribute is absent: the
sentiment stage's unguarded `parse_s3_uri("")` raises. -/
def badSentRecord : StreamRecord :=
  { eventName := "INSERT", reviewId := "r1", userId := "u1",
    originalReviewText := none, originalSummary := none,
    originalTextLocation := none, preprocessedLocation := none,
    overallRating := some 1 }

def goodSentRecord : StreamRecord :=
  { eventName := "INSERT", reviewId := "r2", userId := "u2",
    originalReviewText := none, originalSummary := none,
    originalTextLocation := none,
    preprocessedLocation :=
      some "s3://processed-reviews-bucket/preprocessed/u2/r2.json",
    overallRating := some 5 }

def goodBlob : BlobDoc :=
  { reviewText := none, summary := none,
    preprocessedReviewText := some "product really amazing",
    preprocessedSummary := some "excellent" }

def stC7 : PState :=
  { reviews := [], customers := [], ssm := ssmFull,
    blobs := [("processed-reviews-bucket/preprocessed/u2/r2.json",
      goodBlob)] }

/-- **C7 counterexample.**  In SentimentStage a storage/URI failure on one
record is NOT caught per record: with a batch whose first record has no
retrievable preprocessed text, the invocation aborts and the second record
is never attempted (its review gets no sentiment), although the second
record alone processes fine. -/
theorem sentiment_batch_aborts_on_record_failure :
    sentiment_lambda_handler (fun _ => 1) stC7 [badSentRecord, goodSentRecord]
      = (stC7, false) ∧
    (lookupA (sentiment_lambda_handler (fun _ => 1) stC7
        [goodSentRecord]).1.reviews "r2").bind ReviewRec.sentiment
      = some "positive" := by
  constructor
  · decide
  · decide

/-- **C7 (amended).**  In ProfanityStage a per-record failure (text not
retrievable) is caught and the batch continues with the remaining records
exactly as if the failing record were absent; in SentimentStage only the
final record update sits in a `try`, and a failure raised while retrieving
or parsing the record's preprocessed text aborts the whole invocation,
leaving the remaining records of the batch unattempted. -/
theorem per_record_isolation_profanity_not_sentiment :
    (∀ (isProfane : String → Bool) (now : String) (st : PState)
        (r1 : StreamRecord) (rest : List StreamRecord) (e : String),
        getReviewTexts st.blobs r1 = Except.error e →
        profanity_lambda_handler isProfane now st (r1 :: rest) =
          profanity_lambda_handler isProfane now st rest) ∧
    (∀ (score : String → ℚ) (st : PState) (r1 : StreamRecord)
        (rest : List StreamRecord) (e n : String),
        lookupA st.ssm "/app/config/reviews_table" = some n →
        sentimentProcessRecord score st r1 = Except.error e →
        sentiment_lambda_handler score st (r1 :: rest) = (st, false)) := by
  constructor
  · intro ipf now st r1 rest e hfail
    unfold profanity_lambda_handler
    simp only [List.foldl_cons]
    rw [profanityProcessRecord_fetch_error ipf now st r1 e hfail]
  · intro score st r1 rest e n hR hfail
    unfold sentiment_lambda_handler
    rw [hR]
    simp only [sentLoop]
    rw [hfail]

/-- A stream record with neither inline text nor a text location: the
profanity stage's per-record fetch raises and is caught. -/
def badProfRecord : StreamRecord :=
  { eventName := "INSERT", reviewId := "r3", userId := "u3",
    originalReviewText := none, originalSummary := none,
    originalTextLocation := none, preprocessedLocation := none,
    overallRating := none }

/-- Witness for the amended C7, at concrete batches: the profanity batch
with a failing first record equals the batch without it; the sentiment batch
with a failing first record aborts unchanged. -/
theorem per_record_isolation_witness :
    profanity_lambda_handler (fun _ => true) "t1" st0
        [badProfRecord, profaneRecord] =
      profanity_lambda_handler (fun _ => true) "t1" st0 [profaneRecord] ∧
    sentiment_lambda_handler (fun _ => 1) stC7 [badSentRecord, goodSentRecord]
      = (stC7, false) :=
  ⟨per_record_isolation_profanity_not_sentiment.1 (fun _ => true) "t1" st0
      badProfRecord [profaneRecord] "KeyError: originalTextLocation"
      (by rfl),
   per_record_isolation_profanity_not_sentiment.2 (fun _ => 1) stC7
      badSentRecord [goodSentRecord] "Invalid S3 URI: " "reviews" (by decide)
      (by rfl)⟩

/-! ## C9: configuration resolution -/

def stNoCfg : PState :=
  { reviews := [], customers := [], ssm := [], blobs := [] }

/-- **C9 counterexample.**  With an empty parameter store (every named
parameter absent), a ProfanityStage invocation does not fail initialization:
it fully processes a record — the review is classified and updated in the
hardcoded reviews table — and the invocation returns 200. -/
theorem profanity_processes_despite_missing_config :
    (profanity_lambda_handler (fun _ => true) "t1" stNoCfg
        [profaneRecord]).2 = 200 ∧
    (lookupA (profanity_lambda_handler (fun _ => true) "t1" stNoCfg
        [profaneRecord]).1.reviews "r1").bind ReviewRec.profanityCheckStatus
      = some "completed" := by
  constructor
  · rfl
  · decide

/-- **C9 (amended).**  PreprocessStage and SentimentStage resolve their
configuration parameters at handler startup and any absent parameter fails
the invocation before any record is processed: preprocess answers 500 with
the SSM error naming the first missing of `raw_bucket`, `processed_bucket`,
`reviews_table` and performs no writes; sentiment fails the invocation with
no record processed when `reviews_table` is absent.  ProfanityStage does
not: its reviews table is hardcoded; `customers_table` is resolved per
record after the review update, so its absence skips that record's whole
customer/ban step; `profanity_threshold` is resolved only inside the ban
guard, so its absence (or unparsability) skips only the ban write while the
counter update has already committed — and in either case the invocation
still returns 200. -/
theorem config_resolution_per_stage :
    (∀ (canon : String → String) (fmtUnix : Int → String)
        (strp : String → Option String) (st : PreState)
        (source_bucket key : String) (review : RawReview)
        (nowIso nowTs : String),
        (lookupA st.ssm "/app/config/raw_bucket" = none ∨
         lookupA st.ssm "/app/config/processed_bucket" = none ∨
         lookupA st.ssm "/app/config/reviews_table" = none) →
        ∃ p, lookupA st.ssm p = none ∧
          (p = "/app/config/raw_bucket" ∨
           p = "/app/config/processed_bucket" ∨
           p = "/app/config/reviews_table") ∧
          preprocess_lambda_handler canon fmtUnix strp st source_bucket key
              review nowIso nowTs =
            (st, ⟨500, PreBody.err
              ("SSM Error (" ++ p ++ "): ParameterNotFound")⟩)) ∧
    (∀ (score : String → ℚ) (st : PState) (records : List StreamRecord),
        lookupA st.ssm "/app/config/reviews_table" = none →
        sentiment_lambda_handler score st records = (st, false)) ∧
    (∀ (isProfane : String → Bool) (now : String) (st : PState)
        (r : StreamRecord) (rt sm : String),
        lookupA st.ssm "/app/config/customers_table" = none →
        r.eventName = "INSERT" → r.originalReviewText = some rt →
        r.originalSummary = some sm →
        profanity_lambda_handler isProfane now st [r] =
          ({ st with reviews :=
              (updateA st.reviews r.reviewId emptyReviewRec
                (profanityUpdate (isProfane rt || isProfane sm) now)) },
            200)) ∧
    (∀ (isProfane : String → Bool) (now : String) (st : PState)
        (r : StreamRecord) (rt sm ctn : String),
        lookupA st.ssm "/app/config/customers_table" = some ctn →
        (lookupA st.ssm "/app/config/profanity_threshold").bind pyInt
          = none →
        r.eventName = "INSERT" → r.originalReviewText = some rt →
        r.originalSummary = some sm →
        profanity_lambda_handler isProfane now st [r] =
          ({ st with
              reviews :=
                (updateA st.reviews r.reviewId emptyReviewRec
                  (profanityUpdate (isProfane rt || isProfane sm) now)),
              customers :=
                (insertA st.customers r.userId
                  (customerAfterCount (lookupA st.customers r.userId)
                    (isProfane rt || isProfane sm) now)) },
            200)) := by
  refine ⟨?_, ?_, ?_, ?_⟩
  · intro canon fmtUnix strp st source_bucket key review nowIso nowTs hmiss
    rcases h1 : lookupA st.ssm "/app/config/raw_bucket" with _ | rb
    · refine ⟨"/app/config/raw_bucket", h1, Or.inl rfl, ?_⟩
      unfold preprocess_lambda_handler preprocess_core get_ssm_param
      rw [h1]
    · rcases h2 : lookupA st.ssm "/app/config/processed_bucket" with _ | pb
      · refine ⟨"/app/config/processed_bucket", h2, Or.inr (Or.inl rfl), ?_⟩
        unfold preprocess_lambda_handler preprocess_core get_ssm_param
        rw [h1, h2]
      · rcases h3 : lookupA st.ssm "/app/config/reviews_table" with _ | rtb
        · refine ⟨"/app/config/reviews_table", h3, Or.inr (Or.inr rfl), ?_⟩
          unfold preprocess_lambda_handler preprocess_core get_ssm_param
          rw [h1, h2, h3]
        · rcases hmiss with h | h | h <;> simp_all
  · intro score st records h
    unfold sentiment_lambda_handler
    rw [h]
  · intro isProfane now st r rt sm h hE hrt hsm
    unfold profanity_lambda_handler
    simp only [List.foldl_cons, List.foldl_nil]
    unfold profanityProcessRecord
    rw [if_neg (by simp [hE]),
      getReviewTexts_inline st.blobs r rt sm hrt hsm]
    dsimp only
    rw [h]
  · intro isProfane now st r rt sm ctn hct hth hE hrt hsm
    unfold profanity_lambda_handler
    simp only [List.foldl_cons, List.foldl_nil]
    unfold profanityProcessRecord
    rw [if_neg (by simp [hE]),
      getReviewTexts_inline st.blobs r rt sm hrt hsm]
    dsimp only
    rw [hct]
    dsimp only
    unfold banStep
    dsimp only
    split
    · rw [hth]
    · rfl

/-- The parameter store seen by the preprocess witness: `raw_bucket` is
present but `processed_bucket` is absent. -/
def stPre9 : PreState :=
  { ssm := [("/app/config/raw_bucket", "raw-reviews-bucket"),
            ("/app/config/reviews_table", "reviews")],
    blobWrites := [], reviewItems := [] }

/-- The parameter store seen by the threshold witness: `customers_table`
present, `profanity_threshold` absent. -/
def stThr9 : PState :=
  { reviews := [], customers := [],
    ssm := [("/app/config/customers_table", "customers")], blobs := [] }

/-- Witness for the amended C9, at concrete inputs for each stage: an absent
`processed_bucket` fails preprocess with no writes; an absent
`reviews_table` fails sentiment with no record processed; an absent
`customers_table` leaves profanity's review update committed and the
customers table untouched; an absent `profanity_threshold` leaves both the
review update and the counter update committed with no ban write — the
profanity invocations still return 200. -/
theorem config_resolution_per_stage_witness :
    (∃ p, lookupA stPre9.ssm p = none ∧
      (p = "/app/config/raw_bucket" ∨
       p = "/app/config/processed_bucket" ∨
       p = "/app/config/reviews_table") ∧
      preprocess_lambda_handler id toString (fun _ => none) stPre9
          "raw-reviews-bucket" "r.json" c5Review "2024-01-01T00:00:00"
          "1700000000.0" =
        (stPre9, ⟨500, PreBody.err
          ("SSM Error (" ++ p ++ "): ParameterNotFound")⟩)) ∧
    sentiment_lambda_handler (fun _ => 1) stNoCfg [goodSentRecord] =
      (stNoCfg, false) ∧
    profanity_lambda_handler (fun _ => true) "t1" stNoCfg [profaneRecord] =
      ({ stNoCfg with reviews :=
          (updateA stNoCfg.reviews "r1" emptyReviewRec
            (profanityUpdate true "t1")) }, 200) ∧
    profanity_lambda_handler (fun _ => true) "t1" stThr9 [profaneRecord] =
      ({ stThr9 with
          reviews :=
            (updateA stThr9.reviews "r1" emptyReviewRec
              (profanityUpdate true "t1")),
          customers :=
            (insertA stThr9.customers "u1"
              (customerAfterCount (lookupA stThr9.customers "u1") true
                "t1")) }, 200) := by
  refine ⟨config_resolution_per_stage.1 id toString (fun _ => none) stPre9
      "raw-reviews-bucket" "r.json" c5Review "2024-01-01T00:00:00"
      "1700000000.0" (Or.inr (Or.inl (by decide))),
    config_resolution_per_stage.2.1 (fun _ => 1) stNoCfg [goodSentRecord]
      (by decide), ?_, ?_⟩
  · exact config_resolution_per_stage.2.2.1 (fun _ => true) "t1" stNoCfg
      profaneRecord "this damn product is bad" "crap" (by decide)
      (by decide) (by decide) (by decide)
  · exact config_resolution_per_stage.2.2.2 (fun _ => true) "t1" stThr9
      profaneRecord "this damn product is bad" "crap" "customers"
      (by decide) (by decide) (by decide) (by decide) (by decide)
